import Mathlib

/-!
Shallow embedding of the trigger-orchestration engine of `automat_core`
(the `automat-rs` repository): the `TriggerEvent` protocol
(`src/automat_core/src/triggers/context.rs`), the runner and its
per-trigger consumer task (`src/automat_core/src/automat/runner.rs`),
the builder (`src/automat_core/src/automat/mod.rs`), the callback
adapter (`src/automat_core/src/callback.rs`), and the concrete
interval and filesystem triggers
(`src/automat_core/src/triggers/interval.rs`, `fs_watcher.rs`).

Asynchronous tasks are embedded as pure functions over explicit
scripts of the events they observe; the bounded tokio mpsc channel is
embedded as a queue with a capacity and a closed flag, and the two
send primitives (`try_send`, which returns immediately, and
`send(..).await`, which suspends while a full channel has no
capacity) are given one-step semantics distinguishing suspension from
an immediate return.
-/

namespace AutomatCore

/-- The error enum of `src/automat_core/src/error.rs`. Payloads of foreign
types (`std::io::Error`, `notify::Error`, ...) are embedded as strings. -/
inductive Error where
  | ioError (msg : String)
  | inputError (msg : String)
  | windowStateError (msg : String)
  | windowListError (msg : String)
  | windowTitleError (msg : String)
  | clipboardError (msg : String)
  | dIError (msg : String)
  | notifyError (msg : String)
  | noWatchPaths
  | fileWatcherStopped
  | callbackError (msg : String)
  | channelSend
deriving Repr

/-- `TriggerEvent` from `src/automat_core/src/triggers/context.rs`. -/
inductive TriggerEvent where
  | error (e : Error)
  | errorFatal (e : Error)
  | stop
deriving Repr

/-- True exactly on the recoverable `Error` protocol event. -/
def TriggerEvent.isRecoverable : TriggerEvent → Bool
  | .error _ => true
  | .errorFatal _ => false
  | .stop => false

/-- A bounded tokio mpsc channel (`tokio::sync::mpsc::channel`),
embedded as its buffered queue, its capacity, and whether the
receiving half has been dropped (closed). -/
structure Chan where
  capacity : Nat
  queue : List TriggerEvent
  closed : Bool
deriving Repr

/-- The error cases of `tokio::sync::mpsc::error::TrySendError`. -/
inductive TrySendError where
  | full
  | closed
deriving Repr

/-- `Sender::try_send`: a plain (non-async) function; it fails with
`Closed` when the receiver is gone and with `Full` when the buffer is
at capacity, and otherwise enqueues the event. It always returns
immediately. -/
def Chan.try_send (c : Chan) (ev : TriggerEvent) : Chan × Option TrySendError :=
  if c.closed then (c, some TrySendError.closed)
  else if c.capacity ≤ c.queue.length then (c, some TrySendError.full)
  else ({ c with queue := c.queue ++ [ev] }, none)

/-- One-step outcome of attempting a channel send: the call either
returns to the caller in this step (successfully or with an error) or
leaves the sender suspended awaiting capacity. -/
inductive SendAttempt where
  | immediateOk (c : Chan)
  | immediateErr (c : Chan) (e : TrySendError)
  | suspended
deriving Repr

/-- Whether a send attempt left the sender suspended (blocked). -/
def SendAttempt.isSuspended : SendAttempt → Bool
  | .suspended => true
  | _ => false

/-- One-step semantics of `Sender::try_send`: never suspends. -/
def Chan.try_send_attempt (c : Chan) (ev : TriggerEvent) : SendAttempt :=
  if c.closed then SendAttempt.immediateErr c TrySendError.closed
  else if c.capacity ≤ c.queue.length then SendAttempt.immediateErr c TrySendError.full
  else SendAttempt.immediateOk { c with queue := c.queue ++ [ev] }

/-- One-step semantics of `Sender::send(..).await`: fails immediately
when the channel is closed, suspends the sender while a full channel
has no capacity, and otherwise enqueues the event. -/
def Chan.send_attempt (c : Chan) (ev : TriggerEvent) : SendAttempt :=
  if c.closed then SendAttempt.immediateErr c TrySendError.closed
  else if c.capacity ≤ c.queue.length then SendAttempt.suspended
  else SendAttempt.immediateOk { c with queue := c.queue ++ [ev] }

/-- `TriggerContext<T>` from `src/automat_core/src/triggers/context.rs`:
the callback-visible handle holding the payload and the event sender. -/
structure TriggerContext (T : Type) where
  data : T
  tx : Chan

/-- Result of one `TriggerContext` send method: the channel afterwards,
the returned `Result<()>`, and whether a backpressure warning was
printed to standard error. -/
structure TrySendOpResult where
  chan : Chan
  result : Except Error Unit
  warned : Bool
deriving Repr

/-- True exactly on the `Err(Error::ChannelSend)` return value. -/
def isChannelSendErr : Except Error Unit → Bool
  | Except.error Error.channelSend => true
  | _ => false

/-- `TriggerContext::error`: `try_send(TriggerEvent::Error(err))`,
mapping a failure to a logged warning plus `Err(Error::ChannelSend)`. -/
def TriggerContext.error (ctx : TriggerContext T) (err : Error) : TrySendOpResult :=
  match ctx.tx.try_send (TriggerEvent.error err) with
  | (c, none) => { chan := c, result := Except.ok (), warned := false }
  | (c, some _) => { chan := c, result := Except.error Error.channelSend, warned := true }

/-- `TriggerContext::error_fatal`: `try_send(TriggerEvent::ErrorFatal(err))`,
mapping a failure to a logged warning plus `Err(Error::ChannelSend)`. -/
def TriggerContext.error_fatal (ctx : TriggerContext T) (err : Error) : TrySendOpResult :=
  match ctx.tx.try_send (TriggerEvent.errorFatal err) with
  | (c, none) => { chan := c, result := Except.ok (), warned := false }
  | (c, some _) => { chan := c, result := Except.error Error.channelSend, warned := true }

/-- `TriggerContext::stop`: `try_send(TriggerEvent::Stop)`, mapping a
failure to a logged warning plus `Err(Error::ChannelSend)`. -/
def TriggerContext.stop (ctx : TriggerContext T) : TrySendOpResult :=
  match ctx.tx.try_send TriggerEvent.stop with
  | (c, none) => { chan := c, result := Except.ok (), warned := false }
  | (c, some _) => { chan := c, result := Except.error Error.channelSend, warned := true }

/-- One-step semantics of the free function `send_error` in
`context.rs`, whose body is `tx.send(TriggerEvent::Error(err)).await`:
the attempted operation is an awaited bounded-channel send. -/
def send_error_attempt (c : Chan) (err : Error) : SendAttempt :=
  c.send_attempt (TriggerEvent.error err)

/-- Completed-call (big-step) result of `send_error`: once the awaited
send finishes, either the channel was closed — a warning is printed
and `false` (stop the trigger loop) is returned — or the event was
delivered and `true` is returned. `closed` is the channel state when
the call completes. -/
def send_error (closed : Bool) (err : Error) : List TriggerEvent × Bool :=
  if closed then ([], false) else ([TriggerEvent.error err], true)

/-- One line printed by the consumer task to standard error when no
error handler is installed (`runner.rs`, `handle_trigger_events`). -/
inductive StderrLine where
  | triggerError (e : Error)
  | fatalTriggerError (e : Error)
deriving Repr

/-- Observable state of one consumer task together with the shared
`CancellationToken`: whether cancellation has been requested, the
arguments passed to the installed error handler so far, and the lines
printed to standard error so far. -/
structure ConsumerState where
  cancelled : Bool
  handlerCalls : List Error
  stderrLog : List StderrLine
deriving Repr

/-- `CancellationToken::cancel`: after the call the token is cancelled,
whatever it was before. -/
def CancellationToken.cancel (_t : Bool) : Bool := true

/-- One iteration of the `while let Some(event) = rx.recv().await` loop
of `Automat::handle_trigger_events` (`runner.rs`): `Error` goes to the
handler (or stderr) only; `ErrorFatal` goes to the handler (or stderr)
and cancels the shared token; `Stop` only cancels the shared token. -/
def handle_one_trigger_event (hasHandler : Bool) (s : ConsumerState)
    (event : TriggerEvent) : ConsumerState :=
  match event with
  | TriggerEvent.error err =>
      if hasHandler then { s with handlerCalls := s.handlerCalls ++ [err] }
      else { s with stderrLog := s.stderrLog ++ [StderrLine.triggerError err] }
  | TriggerEvent.errorFatal err =>
      let s1 :=
        if hasHandler then { s with handlerCalls := s.handlerCalls ++ [err] }
        else { s with stderrLog := s.stderrLog ++ [StderrLine.fatalTriggerError err] }
      { s1 with cancelled := CancellationToken.cancel s1.cancelled }
  | TriggerEvent.stop =>
      { s with cancelled := CancellationToken.cancel s.cancelled }

/-- `Automat::handle_trigger_events` draining a (finite prefix of a)
received event sequence: the loop keeps receiving until the channel is
exhausted, processing every event with `handle_one_trigger_event`. -/
def handle_trigger_events (hasHandler : Bool) (events : List TriggerEvent)
    (s : ConsumerState) : ConsumerState :=
  match events with
  | [] => s
  | e :: rest => handle_trigger_events hasHandler rest (handle_one_trigger_event hasHandler s e)

/-- True exactly on the events whose receipt cancels the shared token. -/
def eventSetsCancel : TriggerEvent → Bool
  | TriggerEvent.error _ => false
  | TriggerEvent.errorFatal _ => true
  | TriggerEvent.stop => true

/-- The epilogue of the per-trigger task spawned by `Automat::run`
(`runner.rs` lines 26–36): given the `Result` returned by
`trigger.start(rt)` and whether the shared token was already cancelled,
the event the task sends on the trigger's channel — `ErrorFatal(err)`
on `Err(err)`, a synthesized `Stop` on `Ok` without cancellation, and
nothing on `Ok` after cancellation. -/
def trigger_task_event (res : Except Error Unit) (shutdownCancelled : Bool) :
    Option TriggerEvent :=
  match res with
  | Except.error err => some (TriggerEvent.errorFatal err)
  | Except.ok _ =>
      if shutdownCancelled then none else some TriggerEvent.stop

/-- A deferred result (a Rust future): either already resolved
(`async move { result }` around a known value) or a still-suspended
computation. -/
inductive Future (β : Type) where
  | ready (b : β)
  | pending (comp : Unit → β)

/-- Awaiting a future: an already-resolved future yields its value, a
suspended one runs its computation to completion. -/
def Future.await : Future β → β
  | Future.ready b => b
  | Future.pending comp => comp ()

/-- The uniform callback type the `callback!` macro in
`src/automat_core/src/callback.rs` generates: a function from the
input to a deferred `Result<()>`. -/
def Callback (α : Type) : Type := α → Future (Except Error Unit)

/-- The `new_*` constructor generated by `callback!`: an asynchronous
user function is boxed unchanged. -/
def new_callback (f : α → Future (Except Error Unit)) : Callback α :=
  fun arg => f arg

/-- The `new_*_blocking` constructor generated by `callback!`: the
synchronous user function is run to completion first (`let result =
f(arg)`) and its outcome wrapped as an already-resolved future
(`Box::pin(async move { result })`). -/
def new_callback_blocking (f : α → Except Error Unit) : Callback α :=
  fun arg =>
    let result := f arg
    Future.ready result

/-- The builder from `src/automat_core/src/automat/mod.rs`, generic in
the trigger objects `T` (`Box<dyn Trigger>`) and the handler objects
`H` (`ErrorHandler`) it stores. -/
structure Automat (T H : Type) where
  triggers : List T
  error_handler : Option H

/-- `Automat::new`: no triggers, no error handler. -/
def Automat.new : Automat T H :=
  { triggers := [], error_handler := none }

/-- `Automat::on_error`: installs (replacing any previous) the global
error handler. -/
def Automat.on_error (a : Automat T H) (handler : H) : Automat T H :=
  { a with error_handler := some handler }

/-- `Automat::with_trigger`: appends one trigger. -/
def Automat.with_trigger (a : Automat T H) (t : T) : Automat T H :=
  { a with triggers := a.triggers ++ [t] }

/-- `Automat::extend`: `self.triggers.extend(other.triggers)` — appends
the other builder's triggers and returns `self`; the other builder's
`error_handler` field is not read. -/
def Automat.extend (a : Automat T H) (other : Automat T H) : Automat T H :=
  { a with triggers := a.triggers ++ other.triggers }

/-- The error handler `Automat::run` clones and hands to every consumer
task (`runner.rs` line 8: `self.error_handler.clone()`). -/
def Automat.runErrorHandler (a : Automat T H) : Option H :=
  a.error_handler

/-- An I/O error from `tokio::signal::ctrl_c`, embedded as a string. -/
abbrev IoErr := String

/-- `await_shutdown` from `src/automat_core/src/main_loop.rs`:
`ctrl_c().await.map_err(Error::IoError)`. -/
def await_shutdown (ctrlc : Except IoErr Unit) : Except Error Unit :=
  match ctrlc with
  | Except.ok _ => Except.ok ()
  | Except.error io => Except.error (Error.ioError io)

/-- Which branch of the `tokio::select!` in `Automat::run` (`runner.rs`
lines 47–50) completes first: the external shutdown signal (with the
result of `ctrl_c`) or the shared token being cancelled internally. -/
inductive ShutdownRace where
  | externalSignal (ctrlc : Except IoErr Unit)
  | internalCancel
deriving Repr

/-- The value `Automat::run` returns (`runner.rs` lines 47–71): the
select yields `await_shutdown()`'s result or `Ok(())` on internal
cancellation; every trigger task's join result is discarded
(`let _ = join_result;` and `let _ = trigger_handle.await;`), the
consumer tasks return `()`, and `shutdown_result` is returned. -/
def Automat.run_result (race : ShutdownRace)
    (joinResults : List (Except Error Unit)) : Except Error Unit :=
  let shutdown_result :=
    match race with
    | ShutdownRace.externalSignal ctrlc => await_shutdown ctrlc
    | ShutdownRace.internalCancel => Except.ok ()
  let _ := joinResults
  shutdown_result

/-- Whether a trigger's event loop has exited by the end of its script,
and with which `Result<()>`, or is still running. -/
inductive LoopExit where
  | finished (r : Except Error Unit)
  | running
deriving Repr

/-- One observed iteration of the `tokio::select!` loop in
`IntervalTrigger::start` (`interval.rs` lines 59–70): either the
shared cancellation signal was observed, or the ticker fired and the
callback returned `cbResult`; `sendClosed` is the channel state if a
failure then has to be reported through `send_error`. -/
inductive TickStep where
  | shutdownObserved
  | tick (cbResult : Except Error Unit) (sendClosed : Bool)

/-- True on the steps at which the `IntervalTrigger::start` loop exits:
observing the cancellation signal, or a callback failure whose
`send_error` finds the event channel closed. -/
def TickStep.causesExit : TickStep → Bool
  | TickStep.shutdownObserved => true
  | TickStep.tick (Except.error _) true => true
  | _ => false

/-- Trace of one `IntervalTrigger::start` execution: the protocol
events it sent and how (whether) it exited. -/
structure IntervalTrace where
  events : List TriggerEvent
  result : LoopExit
deriving Repr

/-- `IntervalTrigger::start` (`interval.rs` lines 54–73) over a script
of observed loop iterations: a shutdown observation breaks the loop
(then `Ok(())`); a tick whose callback fails sends a recoverable
`Error` event via `send_error`, breaking (then `Ok(())`) only when the
channel is closed; a successful tick just continues. -/
def IntervalTrigger.start : List TickStep → IntervalTrace
  | [] => { events := [], result := LoopExit.running }
  | TickStep.shutdownObserved :: _ =>
      { events := [], result := LoopExit.finished (Except.ok ()) }
  | TickStep.tick (Except.ok _) _ :: rest => IntervalTrigger.start rest
  | TickStep.tick (Except.error err) sendClosed :: rest =>
      let (sent, keep) := send_error sendClosed err
      if keep then
        let tr := IntervalTrigger.start rest
        { tr with events := sent ++ tr.events }
      else
        { events := sent, result := LoopExit.finished (Except.ok ()) }

/-- A filesystem path, embedded as a string. -/
abbrev Path := String

/-- `notify::RecursiveMode`. -/
inductive RecursiveMode where
  | recursive
  | nonRecursive
deriving Repr

/-- A `notify::Event`, embedded as a string: the engine only passes it
through to the callback. -/
abbrev NotifyEvent := String

/-- `FileSystemTrigger` from `src/automat_core/src/triggers/fs_watcher.rs`:
a callback over `Result<Event>`, an optional watcher configuration
(embedded as `Unit`: the engine never inspects it), and the configured
watch paths. -/
structure FileSystemTrigger where
  callback : Callback (Except Error NotifyEvent)
  config : Option Unit
  watch_paths : List (Path × RecursiveMode)

/-- `FileSystemTrigger::new`: wraps an asynchronous callback; no
configuration, no watch paths, and no validation. -/
def FileSystemTrigger.new (f : Except Error NotifyEvent → Future (Except Error Unit)) :
    FileSystemTrigger :=
  { callback := new_callback f, config := none, watch_paths := [] }

/-- `FileSystemTrigger::new_blocking`: wraps a synchronous callback; no
configuration, no watch paths, and no validation. -/
def FileSystemTrigger.new_blocking (f : Except Error NotifyEvent → Except Error Unit) :
    FileSystemTrigger :=
  { callback := new_callback_blocking f, config := none, watch_paths := [] }

/-- `FileSystemTrigger::watch_path`: appends one path with its
recursion mode. -/
def FileSystemTrigger.watch_path (t : FileSystemTrigger) (path : Path)
    (recursive : Bool) : FileSystemTrigger :=
  { t with watch_paths := t.watch_paths ++
      [(path, if recursive then RecursiveMode.recursive else RecursiveMode.nonRecursive)] }

/-- `FileSystemTrigger::watch_count`. -/
def FileSystemTrigger.watch_count (t : FileSystemTrigger) : Nat :=
  t.watch_paths.length

/-- One observed iteration of the event loop in
`FileSystemTrigger::start` (`fs_watcher.rs` lines 128–143): the
cancellation signal was observed, or `fs_rx.recv()` returned `None`,
or it returned an event `res`; `sendClosed` is the channel state if a
callback failure then has to be reported through `send_error`. -/
inductive FsLoopStep where
  | shutdownObserved
  | recvNone
  | recvSome (res : Except Error NotifyEvent) (sendClosed : Bool)

/-- Environment of one `FileSystemTrigger::start` execution: the
outcome of `RecommendedWatcher::new` (and the channel state if its
failure is reported), the per-path outcome of `watcher.watch` (and the
channel state at each failure report), and the event-loop script. -/
structure FsEnv where
  watcherCreation : Option Error
  createFailSendClosed : Bool
  watchOutcomes : List (Option Error × Bool)
  loopSteps : List FsLoopStep

/-- Trace of one `FileSystemTrigger::start` execution: the protocol
events it sent, whether a watcher was created, how many times the
callback ran, and how (whether) it exited. -/
structure FsStartTrace where
  events : List TriggerEvent
  watcherCreated : Bool
  callbackCalls : Nat
  result : LoopExit
deriving Repr

/-- The `for (path, mode) in &self.watch_paths` registration loop of
`FileSystemTrigger::start` (lines 120–126): each failed `watch` call
is reported through `send_error`; the method returns early (`Ok(())`)
when that report finds the channel closed. Yields the events sent and
whether the method keeps going. -/
def fsRegisterPaths : List ((Path × RecursiveMode) × (Option Error × Bool)) →
    List TriggerEvent × Bool
  | [] => ([], true)
  | (_, (none, _)) :: rest => fsRegisterPaths rest
  | (_, (some e, sendClosed)) :: rest =>
      let (sent, keep) := send_error sendClosed e
      if keep then
        let (evs, k) := fsRegisterPaths rest
        (sent ++ evs, k)
      else (sent, false)

/-- The `loop { tokio::select! { .. } }` of `FileSystemTrigger::start`
(lines 128–143) over a script of observed iterations: shutdown breaks
(then `Ok(())`); `recv` returning `None` returns
`Err(Error::FileWatcherStopped)`; a received event runs the callback,
and a callback failure is reported through `send_error`, breaking
(then `Ok(())`) only when the channel is closed. -/
def FileSystemTrigger.eventLoop (t : FileSystemTrigger) :
    List FsLoopStep → List TriggerEvent → Nat → FsStartTrace
  | [], evs, calls =>
      { events := evs, watcherCreated := true, callbackCalls := calls,
        result := LoopExit.running }
  | FsLoopStep.shutdownObserved :: _, evs, calls =>
      { events := evs, watcherCreated := true, callbackCalls := calls,
        result := LoopExit.finished (Except.ok ()) }
  | FsLoopStep.recvNone :: _, evs, calls =>
      { events := evs, watcherCreated := true, callbackCalls := calls,
        result := LoopExit.finished (Except.error Error.fileWatcherStopped) }
  | FsLoopStep.recvSome res sendClosed :: rest, evs, calls =>
      match Future.await (t.callback res) with
      | Except.ok _ => t.eventLoop rest evs (calls + 1)
      | Except.error err =>
          let (sent, keep) := send_error sendClosed err
          if keep then t.eventLoop rest (evs ++ sent) (calls + 1)
          else
            { events := evs ++ sent, watcherCreated := true,
              callbackCalls := calls + 1,
              result := LoopExit.finished (Except.ok ()) }

/-- `FileSystemTrigger::start` (`fs_watcher.rs` lines 94–146). With no
configured watch paths it sends `ErrorFatal(Error::NoWatchPaths())` on
the trigger's event channel and returns `Ok(())` before creating any
watcher or running the callback. Otherwise it creates the watcher
(reporting a creation failure via `send_error` and returning
`Ok(())`), registers the paths, and runs the event loop. -/
def FileSystemTrigger.start (t : FileSystemTrigger) (env : FsEnv) : FsStartTrace :=
  if t.watch_paths.isEmpty then
    { events := [TriggerEvent.errorFatal Error.noWatchPaths],
      watcherCreated := false, callbackCalls := 0,
      result := LoopExit.finished (Except.ok ()) }
  else
    match env.watcherCreation with
    | some e =>
        let (sent, _) := send_error env.createFailSendClosed e
        { events := sent, watcherCreated := false, callbackCalls := 0,
          result := LoopExit.finished (Except.ok ()) }
    | none =>
        let (watchEvs, keep) := fsRegisterPaths (t.watch_paths.zip env.watchOutcomes)
        if keep then t.eventLoop env.loopSteps watchEvs 0
        else
          { events := watchEvs, watcherCreated := true, callbackCalls := 0,
            result := LoopExit.finished (Except.ok ()) }

/-! ## Helper lemmas -/

/-- Effect of one consumer iteration on the shared cancellation flag:
it is exactly the old flag or-ed with whether the event is a
cancelling one (`ErrorFatal` or `Stop`). -/
theorem handle_one_trigger_event_cancelled (hh : Bool) (s : ConsumerState)
    (e : TriggerEvent) :
    (handle_one_trigger_event hh s e).cancelled = (s.cancelled || eventSetsCancel e) := by
  cases e <;> cases hh <;>
    simp [handle_one_trigger_event, eventSetsCancel, CancellationToken.cancel]

/-- Effect of draining a whole event sequence on the shared
cancellation flag: the old flag or-ed with whether any drained event
is a cancelling one. -/
theorem handle_trigger_events_cancelled (hh : Bool) (evs : List TriggerEvent)
    (s : ConsumerState) :
    (handle_trigger_events hh evs s).cancelled = (s.cancelled || evs.any eventSetsCancel) := by
  induction evs generalizing s with
  | nil => simp [handle_trigger_events]
  | cons e rest ih =>
      simp [handle_trigger_events, ih, handle_one_trigger_event_cancelled,
        List.any_cons, Bool.or_assoc]

/-- The result of the `IntervalTrigger::start` loop: `Ok(())` exactly
when some scripted step causes the loop to exit (shutdown observed, or
a failure report on a closed channel), still running otherwise. -/
theorem interval_start_result (steps : List TickStep) :
    (IntervalTrigger.start steps).result =
      (if steps.any TickStep.causesExit then LoopExit.finished (Except.ok ())
       else LoopExit.running) := by
  induction steps with
  | nil => simp [IntervalTrigger.start]
  | cons head rest ih =>
      cases head with
      | shutdownObserved => simp [IntervalTrigger.start, TickStep.causesExit]
      | tick r cl =>
          cases r <;> cases cl <;>
            simp [IntervalTrigger.start, TickStep.causesExit, send_error, ih]

/-- Every event the `IntervalTrigger::start` loop sends is the
recoverable `Error` protocol event. -/
theorem interval_start_events_recoverable (steps : List TickStep) :
    (IntervalTrigger.start steps).events.all TriggerEvent.isRecoverable = true := by
  induction steps with
  | nil => simp [IntervalTrigger.start]
  | cons head rest ih =>
      cases head with
      | shutdownObserved => simp [IntervalTrigger.start]
      | tick r cl =>
          cases r <;> cases cl <;>
            simp [IntervalTrigger.start, send_error, TriggerEvent.isRecoverable, ih]

/-! ## Claim theorems -/

/-- Claim C1: for every registered trigger, when `start(runtime)`
returns `Err(err)` the runner's trigger task sends
`TriggerEvent::ErrorFatal(err)` on that trigger's event channel
(whatever the cancellation state); the consumer, on receiving it,
invokes the installed error handler with `err` (or prints the fatal
line to standard error when none is installed) and sets the shared
cancellation signal, so the failure goes through the normal shutdown
path. -/
theorem trigger_start_err_escalates_to_fatal_shutdown
    (err : Error) (b : Bool) (s : ConsumerState) :
    trigger_task_event (Except.error err) b = some (TriggerEvent.errorFatal err) ∧
    (handle_one_trigger_event true s (TriggerEvent.errorFatal err)).cancelled = true ∧
    (handle_one_trigger_event false s (TriggerEvent.errorFatal err)).cancelled = true ∧
    (handle_one_trigger_event true s (TriggerEvent.errorFatal err)).handlerCalls =
      s.handlerCalls ++ [err] ∧
    (handle_one_trigger_event false s (TriggerEvent.errorFatal err)).stderrLog =
      s.stderrLog ++ [StderrLine.fatalTriggerError err] :=
  ⟨rfl, rfl, rfl, rfl, rfl⟩

/-- Claim C2: when a trigger's `start` returns `Ok(())` while the
shared cancellation signal is not yet requested, the runner's trigger
task synthesizes a `TriggerEvent::Stop` on that trigger's channel, and
the consumer's receipt of `Stop` sets the one cancellation token shared
by all trigger tasks, beginning global shutdown. -/
theorem trigger_start_ok_synthesizes_stop_global_shutdown
    (hh : Bool) (s : ConsumerState) :
    trigger_task_event (Except.ok ()) false = some TriggerEvent.stop ∧
    (handle_one_trigger_event hh s TriggerEvent.stop).cancelled = true :=
  ⟨rfl, rfl⟩

/-- Claim C3: the shared cancellation signal is monotone and one-shot:
each consumer iteration leaves the flag equal to its old value or-ed
with whether the event cancels (so a set flag is never cleared, and a
second `Stop`/`ErrorFatal` is a no-op on it), the same holds for
draining any event sequence, and the runner's own
`CancellationToken::cancel` sets the flag and is idempotent. -/
theorem cancellation_signal_monotone_one_shot
    (hh b : Bool) (s : ConsumerState) (e : TriggerEvent) (evs : List TriggerEvent) :
    (handle_one_trigger_event hh s e).cancelled = (s.cancelled || eventSetsCancel e) ∧
    (handle_trigger_events hh evs s).cancelled = (s.cancelled || evs.any eventSetsCancel) ∧
    CancellationToken.cancel b = true ∧
    CancellationToken.cancel (CancellationToken.cancel b) = CancellationToken.cancel b :=
  ⟨handle_one_trigger_event_cancelled hh s e,
   handle_trigger_events_cancelled hh evs s, rfl, rfl⟩

/-- Claim C8: receipt of `TriggerEvent::Stop` by a consumer sets the
shared cancellation signal and nothing else — the error handler is not
invoked and nothing is printed — and the consumer then continues
draining the remaining events of the channel. -/
theorem stop_event_sets_cancel_no_handler_continues
    (hh : Bool) (s : ConsumerState) (rest : List TriggerEvent) :
    handle_one_trigger_event hh s TriggerEvent.stop = { s with cancelled := true } ∧
    (handle_one_trigger_event hh s TriggerEvent.stop).handlerCalls = s.handlerCalls ∧
    (handle_one_trigger_event hh s TriggerEvent.stop).stderrLog = s.stderrLog ∧
    handle_trigger_events hh (TriggerEvent.stop :: rest) s =
      handle_trigger_events hh rest { s with cancelled := true } :=
  ⟨rfl, rfl, rfl, rfl⟩

/-- Claim C9: `extend` returns a builder whose trigger list is the
first builder's triggers followed by the second's in registration
order, and whose error handler is the first builder's unchanged; a
handler installed on the second builder via `on_error` is discarded
and is not the handler `run` hands to the consumer tasks. -/
theorem extend_concatenates_triggers_keeps_own_handler
    (T H : Type) (a b : Automat T H) (hb : H) :
    (a.extend b).triggers = a.triggers ++ b.triggers ∧
    (a.extend b).error_handler = a.error_handler ∧
    (a.extend (b.on_error hb)).error_handler = a.error_handler ∧
    Automat.runErrorHandler (a.extend (b.on_error hb)) = Automat.runErrorHandler a :=
  ⟨rfl, rfl, rfl, rfl⟩

/-- Claim C7: `Automat::run` returns `Err` exactly when the external
shutdown signal branch wins the select and observing the signal itself
failed (the I/O error is wrapped as `Error::IoError`); internal
cancellation or a successfully observed signal yields `Ok(())`, and
the returned value does not depend on the trigger tasks' join
results. -/
theorem run_err_iff_external_signal_observation_fails
    (ctrlc : Except IoErr Unit) (io : IoErr)
    (rs rs2 : List (Except Error Unit)) :
    Automat.run_result ShutdownRace.internalCancel rs = Except.ok () ∧
    Automat.run_result (ShutdownRace.externalSignal (Except.ok ())) rs = Except.ok () ∧
    Automat.run_result (ShutdownRace.externalSignal (Except.error io)) rs =
      Except.error (Error.ioError io) ∧
    Automat.run_result (ShutdownRace.externalSignal ctrlc) rs =
      Automat.run_result (ShutdownRace.externalSignal ctrlc) rs2 ∧
    Automat.run_result ShutdownRace.internalCancel rs =
      Automat.run_result ShutdownRace.internalCancel rs2 :=
  ⟨rfl, rfl, rfl, rfl, rfl⟩

/-- Claim C6: the callback produced by the blocking constructor, when
applied to an input and awaited, yields exactly the synchronous
function's result — the outcome is wrapped as an already-resolved
future and errors are preserved unchanged — so it is observationally
equal to the directly-asynchronous form of the same function. -/
theorem blocking_callback_adapter_preserves_result
    (α : Type) (f : α → Except Error Unit) (x : α) :
    Future.await (new_callback_blocking f x) = f x ∧
    new_callback_blocking f x = Future.ready (f x) ∧
    Future.await (new_callback_blocking f x) =
      Future.await (new_callback (fun a => Future.ready (f a)) x) :=
  ⟨rfl, rfl, rfl⟩

/-- Claim C5: a `FileSystemTrigger` built with zero watch paths is
accepted at build time (`new`/`new_blocking` perform no validation and
registration appends it unconditionally), and its `start` immediately
sends `TriggerEvent::ErrorFatal(Error::NoWatchPaths())` on its event
channel and returns `Ok(())` — before creating any watcher and without
ever invoking the callback — whatever the rest of the environment
does. -/
theorem fs_trigger_zero_paths_fatal_at_start
    (f : Except Error NotifyEvent → Future (Except Error Unit))
    (g : Except Error NotifyEvent → Except Error Unit) (env : FsEnv) :
    (FileSystemTrigger.new f).watch_paths = [] ∧
    (FileSystemTrigger.new_blocking g).watch_paths = [] ∧
    ((Automat.new (T := FileSystemTrigger) (H := Unit)).with_trigger
        (FileSystemTrigger.new f)).triggers = [FileSystemTrigger.new f] ∧
    (FileSystemTrigger.new f).start env =
      { events := [TriggerEvent.errorFatal Error.noWatchPaths],
        watcherCreated := false, callbackCalls := 0,
        result := LoopExit.finished (Except.ok ()) } ∧
    (FileSystemTrigger.new_blocking g).start env =
      { events := [TriggerEvent.errorFatal Error.noWatchPaths],
        watcherCreated := false, callbackCalls := 0,
        result := LoopExit.finished (Except.ok ()) } :=
  ⟨rfl, rfl, rfl, rfl, rfl⟩

/-- Claim C10: `IntervalTrigger::start` returns `Ok(())` on every
terminating path — the loop exits exactly when the cancellation signal
is observed or a failure report finds the event channel closed, and
then always with `Ok(())` — and every event it sends is the
recoverable `TriggerEvent::Error`, never `ErrorFatal`, so an interval
callback failure alone cannot report a fatal condition. -/
theorem interval_start_always_ok_errors_recoverable (steps : List TickStep) :
    (IntervalTrigger.start steps).result =
      (if steps.any TickStep.causesExit then LoopExit.finished (Except.ok ())
       else LoopExit.running) ∧
    (IntervalTrigger.start steps).events.all TriggerEvent.isRecoverable = true :=
  ⟨interval_start_result steps, interval_start_events_recoverable steps⟩

/-- Claim C4, counterexample: `send_error` performs
`tx.send(TriggerEvent::Error(err)).await` on the bounded event
channel, and on a full, still-open channel (here: the runner's
capacity-100 channel holding 100 undrained events) that send suspends
the caller until capacity frees — so "attempting to send when the
channel is full ... never blocks the sender" is false for
`send_error`. -/
theorem send_error_full_channel_suspends :
    (send_error_attempt
        { capacity := 100, queue := List.replicate 100 TriggerEvent.stop,
          closed := false }
        Error.channelSend).isSuspended = true := by
  decide

/-- Claim C4, amended: the three `TriggerContext` send methods use
`try_send` and never suspend the sender in any channel state; their
failure on a full or closed channel only produces a logged warning and
an `Err(Error::ChannelSend)` return value, and they enqueue nothing
but the requested event. `send_error` never suspends on a closed
channel, but it suspends exactly when the channel is open and full
(awaiting capacity); the events it delivers are only recoverable
`Error` events. -/
theorem send_ops_blocking_characterization
    (T : Type) (x : T) (c : Chan) (err : Error) (cl : Bool) :
    (c.try_send_attempt (TriggerEvent.error err)).isSuspended = false ∧
    (c.try_send_attempt (TriggerEvent.errorFatal err)).isSuspended = false ∧
    (c.try_send_attempt TriggerEvent.stop).isSuspended = false ∧
    (send_error_attempt c err).isSuspended =
      (!c.closed && decide (c.capacity ≤ c.queue.length)) ∧
    ((TriggerContext.mk x c).error err).warned =
      isChannelSendErr ((TriggerContext.mk x c).error err).result ∧
    ((TriggerContext.mk x c).error_fatal err).warned =
      isChannelSendErr ((TriggerContext.mk x c).error_fatal err).result ∧
    ((TriggerContext.mk x c).stop).warned =
      isChannelSendErr ((TriggerContext.mk x c).stop).result ∧
    (((TriggerContext.mk x c).error err).chan.queue = c.queue ∨
      ((TriggerContext.mk x c).error err).chan.queue =
        c.queue ++ [TriggerEvent.error err]) ∧
    (send_error cl err).1.all TriggerEvent.isRecoverable = true := by
  by_cases hc : c.closed <;> by_cases hl : c.capacity ≤ c.queue.length <;>
    cases cl <;>
      simp [Chan.try_send_attempt, SendAttempt.isSuspended, send_error_attempt,
        Chan.send_attempt, TriggerContext.error, TriggerContext.error_fatal,
        TriggerContext.stop, Chan.try_send, isChannelSendErr, send_error,
        TriggerEvent.isRecoverable, hc, hl]

end AutomatCore
